import Mathlib

/-!
Verification of the QuickGeoGL / QuickQanava components against their
natural-language specification.

Shallow embedding of:
* `qgl::Arrow` (src/QuickGeoGL/src/qglArrow.cpp): geometry of an arrow made of
  an internal line plus two optional polygonal cap items;
* `qan::ProgressNotifier` (src/src/qanProgressNotifier.cpp);
* the plain property setters of `qan::Node` (src/src/qanNode.h).

`qreal`/`double` values are modelled as real numbers `ℝ`.
-/

namespace qgl

/-- Cap styles of `qgl::Arrow` (enum `CapStyle` with values
`NoCap`, `ArrowCap`, `CircleCap`). -/
inductive CapStyle where
  | NoCap
  | ArrowCap
  | CircleCap
deriving DecidableEq, Repr

/-- Transform origins of a `QQuickItem`; only `TopLeft` is used by the code,
`Center` stands for the Qt default. -/
inductive TransformOrigin where
  | TopLeft
  | Center
deriving DecidableEq, Repr

/-- Colors are modelled abstractly as natural numbers (only equality of
`QColor` values is ever used by the embedded code). -/
abbrev Color := ℕ

/-- A 2D point (`QPointF`). -/
abbrev Point := ℝ × ℝ

/-- Signals emitted by the embedded objects, collected in emission order. -/
inductive Signal where
  | colorChanged
  | p1Changed
  | p2Changed
  | lineWidthChanged
  | p1CapStyleChanged
  | p2CapStyleChanged
  | p1CapSizeChanged
  | p2CapSizeChanged
deriving DecidableEq, Repr

/-- State of the internal `qgl::Line` item owned by an `Arrow`
(`_line` member). `qglLine.h` is not under src/; following the arrow code,
its setters `setP1`, `setP2`, `setColor`, `setLineWidth` are plain stores
into these fields. -/
structure LineState where
  p1 : Point
  p2 : Point
  color : Color
  lineWidth : ℝ

/-- State of a `qgl::ConvexPolygon` cap item (`_p1Arrow` / `_p2Arrow`
members): position, rotation (degrees), transform origin, visibility,
vertex list and border width, as driven by `qglArrow.cpp`. -/
structure CapItem where
  x : ℝ
  y : ℝ
  rotation : ℝ
  transformOrigin : TransformOrigin
  visible : Bool
  polygon : List Point
  color : Color
  borderWidth : ℝ

/-- A freshly constructed `qgl::ConvexPolygon` (QQuickItem defaults:
position at origin, no rotation, visible). -/
def CapItem.fresh : CapItem :=
  { x := 0, y := 0, rotation := 0, transformOrigin := .Center,
    visible := true, polygon := [], color := 0, borderWidth := 1 }

/-- State of a `qgl::Arrow`: the endpoints `_p1`, `_p2`, the cap sizes and
styles, the always-present internal line `_line` (created by the
constructor and never reset), the two optional cap items, and the stored
color. -/
structure ArrowState where
  p1 : Point
  p2 : Point
  p1CapSize : ℝ
  p2CapSize : ℝ
  p1CapStyle : CapStyle
  p2CapStyle : CapStyle
  color : Color
  line : LineState
  p1Arrow : Option CapItem
  p2Arrow : Option CapItem

/-- `QLineF::length()`: Euclidean distance between the two endpoints. -/
noncomputable def lineLength (p q : Point) : ℝ :=
  Real.sqrt ((q.1 - p.1) ^ 2 + (q.2 - p.2) ^ 2)

/-- `QLineF::pointAt(t)`: the point at parameter `t` along the segment. -/
def pointAt (p q : Point) (t : ℝ) : Point :=
  (p.1 + t * (q.1 - p.1), p.2 + t * (q.2 - p.2))

/-- Modelled from the spec: the constant `Pi` used by `qglArrow.cpp` is
declared in a header that is not under src/; the spec's rotation formula
is written with the mathematical `2*pi`, so `Pi` is the real `π`. -/
noncomputable def Pi : ℝ := Real.pi

/-- The cap angle computed in `Arrow::updateGeometry`:
`angle = acos(dx/len)`, replaced by `2*Pi - angle` when `dy <= 0`. -/
noncomputable def capAngle (dx dy len : ℝ) : ℝ :=
  let angle := Real.arccos (dx / len)
  if dy ≤ 0 then 2 * Pi - angle else angle

open Classical in
/-- First switch of `Arrow::updateGeometry` (source cap, on `_p1`):
assumes the guard `lineLength ≥ 0.0001` already passed; `len` is the
pre-computed line length. -/
noncomputable def Arrow.updateGeometryP1 (s : ArrowState) (len : ℝ) : ArrowState :=
  match s.p1CapStyle with
  | .NoCap => { s with line := { s.line with p1 := s.p1 } }
  | .ArrowCap =>
    match s.p1Arrow with
    | none => s
    | some cap =>
      let angle := capAngle (s.p2.1 - s.p1.1) (s.p2.2 - s.p1.2) len
      let truncatedSource := pointAt s.p1 s.p2 (s.p1CapSize * 2 / len)
      { s with
        line := { s.line with p1 := truncatedSource },
        p1Arrow := some { cap with
          x := s.p1.1, y := s.p1.2,
          transformOrigin := .TopLeft,
          rotation := angle * 180 / Pi } }
  | .CircleCap => s

open Classical in
/-- Second switch of `Arrow::updateGeometry` (destination cap, on `_p2`). -/
noncomputable def Arrow.updateGeometryP2 (s : ArrowState) (len : ℝ) : ArrowState :=
  match s.p2CapStyle with
  | .NoCap => { s with line := { s.line with p2 := s.p2 } }
  | .ArrowCap =>
    match s.p2Arrow with
    | none => s
    | some cap =>
      let angle := capAngle (s.p2.1 - s.p1.1) (s.p2.2 - s.p1.2) len
      let truncatedP2 := pointAt s.p1 s.p2 (1.0 - s.p2CapSize * 2 / len)
      { s with
        line := { s.line with p2 := truncatedP2 },
        p2Arrow := some { cap with
          x := s.p2.1, y := s.p2.2,
          transformOrigin := .TopLeft,
          rotation := angle * 180 / Pi } }
  | .CircleCap => s

open Classical in
/-- `Arrow::updateGeometry`: returns unchanged when the length of the
segment `_p1 _p2` is below `0.0001`, otherwise runs the two cap switches
(both read the original `_p1`, `_p2` and the pre-computed length). -/
noncomputable def Arrow.updateGeometry (s : ArrowState) : ArrowState :=
  let lineLen := lineLength s.p1 s.p2
  if lineLen < 0.0001 then s
  else Arrow.updateGeometryP2 (Arrow.updateGeometryP1 s lineLen) lineLen

open Classical in
/-- The spec's formulation of the cap angle: `theta = acos(dx/len)` when
`dy > 0` and `theta = 2*pi - acos(dx/len)` when `dy <= 0`. -/
noncomputable def capAngleSpec (dx dy len : ℝ) : ℝ :=
  if 0 < dy then Real.arccos (dx / len)
  else 2 * Real.pi - Real.arccos (dx / len)

/-- C8 scratch example state: degenerate segment. -/
noncomputable def degenerateState : ArrowState :=
  { p1 := (0, 0), p2 := (0, 0), p1CapSize := 1, p2CapSize := 1,
    p1CapStyle := .ArrowCap, p2CapStyle := .ArrowCap, color := 0,
    line := { p1 := (3, 3), p2 := (4, 4), color := 0, lineWidth := 1 },
    p1Arrow := some CapItem.fresh, p2Arrow := some CapItem.fresh }

/-- Concrete example state: endpoints `(0,0)` and `(3,4)` (length 5), cap
size 1 at both ends, both caps `ArrowCap` with a present cap item. -/
noncomputable def exArrow : ArrowState :=
  { p1 := (0, 0), p2 := (3, 4), p1CapSize := 1, p2CapSize := 1,
    p1CapStyle := .ArrowCap, p2CapStyle := .ArrowCap, color := 0,
    line := { p1 := (0, 0), p2 := (0, 0), color := 0, lineWidth := 1 },
    p1Arrow := some CapItem.fresh, p2Arrow := some CapItem.fresh }

/-- First switch of `Arrow::updateCapStyle` (the `_p1` cap): `NoCap`
destroys the cap item (`reset`), `ArrowCap` creates the item when missing
and assigns it visibility, border width 2 and the triangular polygon
`(0,0), (arrowLength,-capSize), (arrowLength,capSize), (0,0)` with
`arrowLength = p1CapSize * 2`, `CircleCap` hides an existing item. -/
noncomputable def Arrow.updateCapStyleP1 (s : ArrowState) : ArrowState :=
  match s.p1CapStyle with
  | .NoCap => { s with p1Arrow := none }
  | .ArrowCap =>
    let cap := s.p1Arrow.getD CapItem.fresh
    let arrowLength := s.p1CapSize * 2
    { s with p1Arrow := some { cap with
        visible := true,
        borderWidth := 2.0,
        polygon := [(0, 0), (arrowLength, -s.p1CapSize),
                    (arrowLength, s.p1CapSize), (0, 0)] } }
  | .CircleCap =>
    match s.p1Arrow with
    | none => s
    | some cap => { s with p1Arrow := some { cap with visible := false } }

/-- Second switch of `Arrow::updateCapStyle` (the `_p2` cap); the polygon is
built around `dst = (-arrowLength, 0)` with `arrowLength = p2CapSize * 2`. -/
noncomputable def Arrow.updateCapStyleP2 (s : ArrowState) : ArrowState :=
  match s.p2CapStyle with
  | .NoCap => { s with p2Arrow := none }
  | .ArrowCap =>
    let cap := s.p2Arrow.getD CapItem.fresh
    let arrowLength := s.p2CapSize * 2
    let dst : Point := (-arrowLength, 0)
    { s with p2Arrow := some { cap with
        visible := true,
        borderWidth := 2.0,
        polygon := [(dst.1, dst.2 - s.p2CapSize), (dst.1 + arrowLength, dst.2),
                    (dst.1, dst.2 + s.p2CapSize), (dst.1, dst.2 - s.p2CapSize)] } }
  | .CircleCap =>
    match s.p2Arrow with
    | none => s
    | some cap => { s with p2Arrow := some { cap with visible := false } }

/-- `Arrow::updateCapStyle`: both cap switches in order. -/
noncomputable def Arrow.updateCapStyle (s : ArrowState) : ArrowState :=
  Arrow.updateCapStyleP2 (Arrow.updateCapStyleP1 s)

/-- Modelled from the spec: `qglArrow.h` (the `Arrow` class declaration with
its inline getters) is not under src/; `getLineWidth` reads the width of the
internal line, which is what `Arrow::setLineWidth` writes. -/
noncomputable def getLineWidth (s : ArrowState) : ℝ := s.line.lineWidth

/-- Getter `getP1CapSize` (field read of `_p1CapSize`). -/
def getP1CapSize (s : ArrowState) : ℝ := s.p1CapSize

/-- Getter `getP2CapSize` (field read of `_p2CapSize`). -/
def getP2CapSize (s : ArrowState) : ℝ := s.p2CapSize

/-- Qt's `qFuzzyCompare` on doubles:
`qAbs(p1 - p2) * 1000000000000.0 <= qMin(qAbs(p1), qAbs(p2))`. -/
def qFuzzyCompare (a b : ℝ) : Prop :=
  |a - b| * 1000000000000 ≤ min |a| |b|

open Classical in
/-- `Arrow::setP1CapSize`: clamps the argument to at least
`getLineWidth()/2`, and unless the clamped value fuzzy-compares equal to
the stored one (binding loop protection), stores it, emits
`p1CapSizeChanged` and runs `updateCapStyle` then `updateGeometry`. -/
noncomputable def Arrow.setP1CapSize (s : ArrowState) (capSize : ℝ) :
    ArrowState × List Signal :=
  let c := max (getLineWidth s / 2) capSize
  if ¬ qFuzzyCompare (1 + c) (1 + s.p1CapSize) then
    (Arrow.updateGeometry (Arrow.updateCapStyle { s with p1CapSize := c }),
     [.p1CapSizeChanged])
  else (s, [])

open Classical in
/-- `Arrow::setP2CapSize`, symmetric to `setP1CapSize`. -/
noncomputable def Arrow.setP2CapSize (s : ArrowState) (capSize : ℝ) :
    ArrowState × List Signal :=
  let c := max (getLineWidth s / 2) capSize
  if ¬ qFuzzyCompare (1 + c) (1 + s.p2CapSize) then
    (Arrow.updateGeometry (Arrow.updateCapStyle { s with p2CapSize := c }),
     [.p2CapSizeChanged])
  else (s, [])

open Classical in
/-- `Arrow::setLineWidth`: stores the width on the internal line, then
raises the P2 cap size and the P1 cap size (in that order) to
`lineWidth/2` when they are strictly below it, and emits
`lineWidthChanged`. -/
noncomputable def Arrow.setLineWidth (s : ArrowState) (lineWidth : ℝ) :
    ArrowState × List Signal :=
  let s0 := { s with line := { s.line with lineWidth := lineWidth } }
  let r2 := if getP2CapSize s0 < lineWidth / 2
    then Arrow.setP2CapSize s0 (lineWidth / 2) else (s0, [])
  let r1 := if getP1CapSize r2.1 < lineWidth / 2
    then Arrow.setP1CapSize r2.1 (lineWidth / 2) else (r2.1, [])
  (r1.1, r2.2 ++ r1.2 ++ [.lineWidthChanged])

/-- `Arrow::setColor`: a no-op when the color is unchanged (binding loop
protection); otherwise stores the color, propagates it to the internal
line and to each non-null cap item, and emits `colorChanged` once. -/
def Arrow.setColor (s : ArrowState) (color : Color) :
    ArrowState × List Signal :=
  if color ≠ s.color then
    ({ s with
        color := color,
        line := { s.line with color := color },
        p1Arrow := s.p1Arrow.map (fun cap => { cap with color := color }),
        p2Arrow := s.p2Arrow.map (fun cap => { cap with color := color }) },
     [.colorChanged])
  else (s, [])

/-- C5 counterexample companion of `exArrow`: same endpoints and cap sizes
but `NoCap` at the P1 end (with no cap item). -/
noncomputable def exArrowNoCap : ArrowState :=
  { exArrow with p1CapStyle := .NoCap, p1Arrow := none }

/-- C5 witness companion of `exArrow`: same endpoints, cap sizes, cap
styles and cap presence, but different color and internal-line state. -/
noncomputable def exArrowAlt : ArrowState :=
  { exArrow with
    color := 1,
    line := { p1 := (7, 7), p2 := (8, 8), color := 3, lineWidth := 2 } }

/-- C9 counterexample state: `p1CapSize = 1 - 10⁻¹³` equals exactly half of
the current line width `2 - 2*10⁻¹³`, so the cap-size invariant holds. -/
noncomputable def fuzzyState : ArrowState :=
  { p1 := (0, 0), p2 := (3, 4),
    p1CapSize := 1 - 1 / 10 ^ 13, p2CapSize := 5,
    p1CapStyle := .ArrowCap, p2CapStyle := .ArrowCap, color := 0,
    line := { p1 := (0, 0), p2 := (0, 0), color := 0,
              lineWidth := 2 - 2 / 10 ^ 13 },
    p1Arrow := some CapItem.fresh, p2Arrow := some CapItem.fresh }

end qgl

namespace qan

/-- Signals emitted by the `qan::Node` property setters. -/
inductive NodeSignal where
  | labelChanged
  | draggableChanged
  | dropableChanged
  | dragActiveChanged
  | minimumSizeChanged
deriving DecidableEq, Repr

/-- `QSizeF`, modelled as a (width, height) pair. -/
abbrev SizeF := ℝ × ℝ

/-- The `qan::Node` properties touched by the plain inline setters of
qanNode.h: `_label`, `_draggable`, `_dropable`, `_dragActive`,
`_minimumSize`. -/
structure NodeState where
  label : String
  draggable : Bool
  dropable : Bool
  dragActive : Bool
  minimumSize : SizeF

/-- `Node::setLabel`: `_label = label; emit labelChanged();`. -/
def Node.setLabel (s : NodeState) (label : String) :
    NodeState × List NodeSignal :=
  ({ s with label := label }, [.labelChanged])

/-- `Node::setDraggable`: `_draggable = draggable; emit draggableChanged();`. -/
def Node.setDraggable (s : NodeState) (draggable : Bool) :
    NodeState × List NodeSignal :=
  ({ s with draggable := draggable }, [.draggableChanged])

/-- `Node::setDropable`: `_dropable = dropable; emit dropableChanged();`. -/
def Node.setDropable (s : NodeState) (dropable : Bool) :
    NodeState × List NodeSignal :=
  ({ s with dropable := dropable }, [.dropableChanged])

/-- `Node::setDragActive`: `_dragActive = dragActive; emit dragActiveChanged();`. -/
def Node.setDragActive (s : NodeState) (dragActive : Bool) :
    NodeState × List NodeSignal :=
  ({ s with dragActive := dragActive }, [.dragActiveChanged])

/-- `Node::setMinimumSize`: `_minimumSize = minimumSize; emit minimumSizeChanged();`. -/
def Node.setMinimumSize (s : NodeState) (minimumSize : SizeF) :
    NodeState × List NodeSignal :=
  ({ s with minimumSize := minimumSize }, [.minimumSizeChanged])

/-- `Node::getLabel`. -/
def Node.getLabel (s : NodeState) : String := s.label

/-- `Node::getDraggable`. -/
def Node.getDraggable (s : NodeState) : Bool := s.draggable

/-- `Node::getDropable`. -/
def Node.getDropable (s : NodeState) : Bool := s.dropable

/-- `Node::getDragActive`. -/
def Node.getDragActive (s : NodeState) : Bool := s.dragActive

/-- `Node::getMinimumSize`. -/
def Node.getMinimumSize (s : NodeState) : SizeF := s.minimumSize

/-- State of a `qan::ProgressNotifier`. Modelled from the spec: the
`gtpo::ProgressNotifier` base class lives in the external gtpo library
(declared out of scope by the spec) and `QObject` is Qt; only the two
constructor-forwarded fields are modelled — the `QObject` parent pointer
and the super progress notifier pointer taken by the gtpo base
constructor. Pointers are optional object ids. -/
structure ProgressNotifierState where
  parent : Option ℕ
  superNotifier : Option ℕ

/-- `qan::ProgressNotifier::ProgressNotifier(QObject* parent)`: forwards
`parent` to the `QObject` base and `nullptr` as super notifier to the
`gtpo::ProgressNotifier` base; its body is empty. -/
def ProgressNotifier.construct (parent : Option ℕ) : ProgressNotifierState :=
  { parent := parent, superNotifier := none }

end qan

namespace qgl

/- Characterization lemmas for the two switches of `updateCapStyle`. -/

lemma updateCapStyleP1_preserved (s : ArrowState) :
    (Arrow.updateCapStyleP1 s).p1 = s.p1 ∧
    (Arrow.updateCapStyleP1 s).p2 = s.p2 ∧
    (Arrow.updateCapStyleP1 s).p1CapSize = s.p1CapSize ∧
    (Arrow.updateCapStyleP1 s).p2CapSize = s.p2CapSize ∧
    (Arrow.updateCapStyleP1 s).p1CapStyle = s.p1CapStyle ∧
    (Arrow.updateCapStyleP1 s).p2CapStyle = s.p2CapStyle ∧
    (Arrow.updateCapStyleP1 s).p2Arrow = s.p2Arrow ∧
    (Arrow.updateCapStyleP1 s).color = s.color ∧
    (Arrow.updateCapStyleP1 s).line = s.line := by
  unfold Arrow.updateCapStyleP1
  cases hc : s.p1CapStyle
  · simp [hc]
  · simp [hc]
  · cases ha : s.p1Arrow <;> simp [hc, ha]

lemma updateCapStyleP2_preserved (s : ArrowState) :
    (Arrow.updateCapStyleP2 s).p1 = s.p1 ∧
    (Arrow.updateCapStyleP2 s).p2 = s.p2 ∧
    (Arrow.updateCapStyleP2 s).p1CapSize = s.p1CapSize ∧
    (Arrow.updateCapStyleP2 s).p2CapSize = s.p2CapSize ∧
    (Arrow.updateCapStyleP2 s).p1CapStyle = s.p1CapStyle ∧
    (Arrow.updateCapStyleP2 s).p2CapStyle = s.p2CapStyle ∧
    (Arrow.updateCapStyleP2 s).p1Arrow = s.p1Arrow ∧
    (Arrow.updateCapStyleP2 s).color = s.color ∧
    (Arrow.updateCapStyleP2 s).line = s.line := by
  unfold Arrow.updateCapStyleP2
  cases hc : s.p2CapStyle
  · simp [hc]
  · simp [hc]
  · cases ha : s.p2Arrow <;> simp [hc, ha]

lemma updateCapStyleP1_noCap (s : ArrowState) (hc : s.p1CapStyle = .NoCap) :
    Arrow.updateCapStyleP1 s = { s with p1Arrow := none } := by
  unfold Arrow.updateCapStyleP1
  rw [hc]

lemma updateCapStyleP1_arrowCap (s : ArrowState)
    (hc : s.p1CapStyle = .ArrowCap) :
    Arrow.updateCapStyleP1 s =
      { s with p1Arrow := some { s.p1Arrow.getD CapItem.fresh with
          visible := true,
          borderWidth := 2.0,
          polygon := [(0, 0), (s.p1CapSize * 2, -s.p1CapSize),
                      (s.p1CapSize * 2, s.p1CapSize), (0, 0)] } } := by
  unfold Arrow.updateCapStyleP1
  rw [hc]

lemma updateCapStyleP1_circleCap_none (s : ArrowState)
    (hc : s.p1CapStyle = .CircleCap) (ha : s.p1Arrow = none) :
    Arrow.updateCapStyleP1 s = s := by
  unfold Arrow.updateCapStyleP1
  simp [hc, ha]

lemma updateCapStyleP1_circleCap_some (s : ArrowState) (cap : CapItem)
    (hc : s.p1CapStyle = .CircleCap) (ha : s.p1Arrow = some cap) :
    Arrow.updateCapStyleP1 s =
      { s with p1Arrow := some { cap with visible := false } } := by
  unfold Arrow.updateCapStyleP1
  rw [hc, ha]

lemma updateCapStyleP2_noCap (s : ArrowState) (hc : s.p2CapStyle = .NoCap) :
    Arrow.updateCapStyleP2 s = { s with p2Arrow := none } := by
  unfold Arrow.updateCapStyleP2
  rw [hc]

lemma updateCapStyleP2_arrowCap (s : ArrowState)
    (hc : s.p2CapStyle = .ArrowCap) :
    Arrow.updateCapStyleP2 s =
      { s with p2Arrow := some { s.p2Arrow.getD CapItem.fresh with
          visible := true,
          borderWidth := 2.0,
          polygon := [(-(s.p2CapSize * 2), 0 - s.p2CapSize),
                      (-(s.p2CapSize * 2) + s.p2CapSize * 2, 0),
                      (-(s.p2CapSize * 2), 0 + s.p2CapSize),
                      (-(s.p2CapSize * 2), 0 - s.p2CapSize)] } } := by
  unfold Arrow.updateCapStyleP2
  rw [hc]

lemma updateCapStyleP2_circleCap_none (s : ArrowState)
    (hc : s.p2CapStyle = .CircleCap) (ha : s.p2Arrow = none) :
    Arrow.updateCapStyleP2 s = s := by
  unfold Arrow.updateCapStyleP2
  simp [hc, ha]

lemma updateCapStyleP2_circleCap_some (s : ArrowState) (cap : CapItem)
    (hc : s.p2CapStyle = .CircleCap) (ha : s.p2Arrow = some cap) :
    Arrow.updateCapStyleP2 s =
      { s with p2Arrow := some { cap with visible := false } } := by
  unfold Arrow.updateCapStyleP2
  rw [hc, ha]

/- Characterization lemmas for the two switches of `updateGeometry`. -/

lemma updateGeometryP1_preserved (s : ArrowState) (len : ℝ) :
    (Arrow.updateGeometryP1 s len).p1 = s.p1 ∧
    (Arrow.updateGeometryP1 s len).p2 = s.p2 ∧
    (Arrow.updateGeometryP1 s len).p1CapSize = s.p1CapSize ∧
    (Arrow.updateGeometryP1 s len).p2CapSize = s.p2CapSize ∧
    (Arrow.updateGeometryP1 s len).p1CapStyle = s.p1CapStyle ∧
    (Arrow.updateGeometryP1 s len).p2CapStyle = s.p2CapStyle ∧
    (Arrow.updateGeometryP1 s len).p2Arrow = s.p2Arrow ∧
    (Arrow.updateGeometryP1 s len).color = s.color ∧
    (Arrow.updateGeometryP1 s len).line.p2 = s.line.p2 ∧
    (Arrow.updateGeometryP1 s len).line.lineWidth = s.line.lineWidth ∧
    (Arrow.updateGeometryP1 s len).line.color = s.line.color := by
  unfold Arrow.updateGeometryP1
  cases hc : s.p1CapStyle
  · simp [hc]
  · cases ha : s.p1Arrow <;> simp [hc, ha]
  · simp [hc]

lemma updateGeometryP2_preserved (s : ArrowState) (len : ℝ) :
    (Arrow.updateGeometryP2 s len).p1 = s.p1 ∧
    (Arrow.updateGeometryP2 s len).p2 = s.p2 ∧
    (Arrow.updateGeometryP2 s len).p1CapSize = s.p1CapSize ∧
    (Arrow.updateGeometryP2 s len).p2CapSize = s.p2CapSize ∧
    (Arrow.updateGeometryP2 s len).p1CapStyle = s.p1CapStyle ∧
    (Arrow.updateGeometryP2 s len).p2CapStyle = s.p2CapStyle ∧
    (Arrow.updateGeometryP2 s len).p1Arrow = s.p1Arrow ∧
    (Arrow.updateGeometryP2 s len).color = s.color ∧
    (Arrow.updateGeometryP2 s len).line.p1 = s.line.p1 ∧
    (Arrow.updateGeometryP2 s len).line.lineWidth = s.line.lineWidth ∧
    (Arrow.updateGeometryP2 s len).line.color = s.line.color := by
  unfold Arrow.updateGeometryP2
  cases hc : s.p2CapStyle
  · simp [hc]
  · cases ha : s.p2Arrow <;> simp [hc, ha]
  · simp [hc]

lemma updateGeometryP1_noCap (s : ArrowState) (len : ℝ)
    (hc : s.p1CapStyle = .NoCap) :
    Arrow.updateGeometryP1 s len = { s with line := { s.line with p1 := s.p1 } } := by
  unfold Arrow.updateGeometryP1
  rw [hc]

lemma updateGeometryP1_arrowCap (s : ArrowState) (len : ℝ) (cap : CapItem)
    (hc : s.p1CapStyle = .ArrowCap) (ha : s.p1Arrow = some cap) :
    Arrow.updateGeometryP1 s len =
      { s with
        line := { s.line with p1 := pointAt s.p1 s.p2 (s.p1CapSize * 2 / len) },
        p1Arrow := some { cap with
          x := s.p1.1, y := s.p1.2,
          transformOrigin := .TopLeft,
          rotation := capAngle (s.p2.1 - s.p1.1) (s.p2.2 - s.p1.2) len * 180 / Pi } } := by
  unfold Arrow.updateGeometryP1
  rw [hc, ha]

lemma updateGeometryP1_circleCap (s : ArrowState) (len : ℝ)
    (hc : s.p1CapStyle = .CircleCap) :
    Arrow.updateGeometryP1 s len = s := by
  unfold Arrow.updateGeometryP1
  rw [hc]

lemma updateGeometryP2_noCap (s : ArrowState) (len : ℝ)
    (hc : s.p2CapStyle = .NoCap) :
    Arrow.updateGeometryP2 s len = { s with line := { s.line with p2 := s.p2 } } := by
  unfold Arrow.updateGeometryP2
  rw [hc]

lemma updateGeometryP2_arrowCap (s : ArrowState) (len : ℝ) (cap : CapItem)
    (hc : s.p2CapStyle = .ArrowCap) (ha : s.p2Arrow = some cap) :
    Arrow.updateGeometryP2 s len =
      { s with
        line := { s.line with p2 := pointAt s.p1 s.p2 (1.0 - s.p2CapSize * 2 / len) },
        p2Arrow := some { cap with
          x := s.p2.1, y := s.p2.2,
          transformOrigin := .TopLeft,
          rotation := capAngle (s.p2.1 - s.p1.1) (s.p2.2 - s.p1.2) len * 180 / Pi } } := by
  unfold Arrow.updateGeometryP2
  rw [hc, ha]

lemma updateGeometryP2_circleCap (s : ArrowState) (len : ℝ)
    (hc : s.p2CapStyle = .CircleCap) :
    Arrow.updateGeometryP2 s len = s := by
  unfold Arrow.updateGeometryP2
  rw [hc]

lemma updateGeometry_long (s : ArrowState)
    (hlen : ¬ lineLength s.p1 s.p2 < 0.0001) :
    Arrow.updateGeometry s =
      Arrow.updateGeometryP2 (Arrow.updateGeometryP1 s (lineLength s.p1 s.p2))
        (lineLength s.p1 s.p2) := by
  unfold Arrow.updateGeometry
  simp [hlen]

lemma capAngle_eq_capAngleSpec (dx dy len : ℝ) :
    capAngle dx dy len = capAngleSpec dx dy len := by
  unfold capAngle capAngleSpec Pi
  rcases le_or_lt dy 0 with h | h
  · simp [h, not_lt.mpr h]
  · simp [h, not_le.mpr h]

lemma exArrow_length : lineLength exArrow.p1 exArrow.p2 = 5 := by
  have h : ((3 : ℝ) - 0) ^ 2 + ((4 : ℝ) - 0) ^ 2 = 5 ^ 2 := by norm_num
  simp only [lineLength, exArrow]
  rw [h, Real.sqrt_sq (by norm_num : (0 : ℝ) ≤ 5)]

lemma exArrow_length_not_short : ¬ lineLength exArrow.p1 exArrow.p2 < 0.0001 := by
  rw [exArrow_length]; norm_num

/-- C8: `Arrow::updateGeometry` is total and guards the divisions by the
line length: when the distance between `_p1` and `_p2` is strictly below
`0.0001` it returns immediately, leaving the whole state — in particular
the internal line endpoints and both cap items — unchanged. -/
theorem updateGeometry_short_line_noop (s : ArrowState)
    (h : lineLength s.p1 s.p2 < 0.0001) :
    Arrow.updateGeometry s = s := by
  unfold Arrow.updateGeometry
  simp [h]

/-- Witness for C8 at a concrete degenerate segment. -/
theorem updateGeometry_short_line_noop_witness :
    lineLength degenerateState.p1 degenerateState.p2 < 0.0001 ∧
      Arrow.updateGeometry degenerateState = degenerateState := by
  have h : lineLength degenerateState.p1 degenerateState.p2 < 0.0001 := by
    simp [lineLength, degenerateState]
    norm_num
  exact ⟨h, updateGeometry_short_line_noop degenerateState h⟩

/-- C1: for endpoints at distance at least `0.0001`, `Arrow::updateGeometry`
truncates the internal line at each `ArrowCap` end with a non-null cap item:
the internal line's P1 becomes the point at parameter `p1CapSize*2/length`
along the segment, its P2 the point at parameter `1 - p2CapSize*2/length`
(pulled back `2*capSize` from `p2` toward `p1`), while a `NoCap` end receives
the untruncated endpoint itself. -/
theorem updateGeometry_truncates (s : ArrowState)
    (hlen : ¬ lineLength s.p1 s.p2 < 0.0001) :
    ((s.p1CapStyle = .ArrowCap → s.p1Arrow.isSome →
        (Arrow.updateGeometry s).line.p1
          = pointAt s.p1 s.p2 (s.p1CapSize * 2 / lineLength s.p1 s.p2)) ∧
      (s.p1CapStyle = .NoCap → (Arrow.updateGeometry s).line.p1 = s.p1)) ∧
    ((s.p2CapStyle = .ArrowCap → s.p2Arrow.isSome →
        (Arrow.updateGeometry s).line.p2
          = pointAt s.p1 s.p2 (1 - s.p2CapSize * 2 / lineLength s.p1 s.p2)) ∧
      (s.p2CapStyle = .NoCap → (Arrow.updateGeometry s).line.p2 = s.p2)) := by
  have hp1pres := updateGeometryP1_preserved s (lineLength s.p1 s.p2)
  have hp2pres := updateGeometryP2_preserved
    (Arrow.updateGeometryP1 s (lineLength s.p1 s.p2)) (lineLength s.p1 s.p2)
  rw [updateGeometry_long s hlen]
  refine ⟨⟨?_, ?_⟩, ?_, ?_⟩
  · intro h1 h2
    obtain ⟨cap, hcap⟩ := Option.isSome_iff_exists.mp h2
    rw [hp2pres.2.2.2.2.2.2.2.2.1,
        updateGeometryP1_arrowCap s (lineLength s.p1 s.p2) cap h1 hcap]
  · intro h1
    rw [hp2pres.2.2.2.2.2.2.2.2.1, updateGeometryP1_noCap s _ h1]
  · intro h1 h2
    obtain ⟨cap, hcap⟩ := Option.isSome_iff_exists.mp h2
    have hstyle : (Arrow.updateGeometryP1 s (lineLength s.p1 s.p2)).p2CapStyle
        = .ArrowCap := by rw [hp1pres.2.2.2.2.2.1]; exact h1
    have harr : (Arrow.updateGeometryP1 s (lineLength s.p1 s.p2)).p2Arrow
        = some cap := by rw [hp1pres.2.2.2.2.2.2.1]; exact hcap
    rw [updateGeometryP2_arrowCap _ _ cap hstyle harr]
    show pointAt _ _ _ = pointAt s.p1 s.p2 _
    rw [hp1pres.1, hp1pres.2.1, hp1pres.2.2.2.1]
    norm_num
  · intro h1
    have hstyle : (Arrow.updateGeometryP1 s (lineLength s.p1 s.p2)).p2CapStyle
        = .NoCap := by rw [hp1pres.2.2.2.2.2.1]; exact h1
    rw [updateGeometryP2_noCap _ _ hstyle]
    exact hp1pres.2.1

/-- Witness for C1 at endpoints `(0,0)`, `(3,4)` with both caps present. -/
theorem updateGeometry_truncates_witness :
    (Arrow.updateGeometry exArrow).line.p1
        = pointAt exArrow.p1 exArrow.p2
            (exArrow.p1CapSize * 2 / lineLength exArrow.p1 exArrow.p2) ∧
      (Arrow.updateGeometry exArrow).line.p2
        = pointAt exArrow.p1 exArrow.p2
            (1 - exArrow.p2CapSize * 2 / lineLength exArrow.p1 exArrow.p2) :=
  ⟨(updateGeometry_truncates exArrow exArrow_length_not_short).1.1 rfl rfl,
   (updateGeometry_truncates exArrow exArrow_length_not_short).2.1 rfl rfl⟩

/-- C2: for endpoints at distance `len ≥ 0.0001`, an `ArrowCap` end with a
non-null cap item gets rotation `deg(theta)` where
`theta = acos(dx/len)` if `dy > 0` and `theta = 2*pi - acos(dx/len)` if
`dy <= 0` (`dx = p2.x - p1.x`, `dy = p2.y - p1.y`); both caps of a given
segment use the same `theta`. -/
theorem updateGeometry_cap_rotation (s : ArrowState)
    (hlen : ¬ lineLength s.p1 s.p2 < 0.0001) :
    (s.p1CapStyle = .ArrowCap → s.p1Arrow.isSome →
        Option.map CapItem.rotation (Arrow.updateGeometry s).p1Arrow
          = some (capAngleSpec (s.p2.1 - s.p1.1) (s.p2.2 - s.p1.2)
              (lineLength s.p1 s.p2) * 180 / Real.pi)) ∧
    (s.p2CapStyle = .ArrowCap → s.p2Arrow.isSome →
        Option.map CapItem.rotation (Arrow.updateGeometry s).p2Arrow
          = some (capAngleSpec (s.p2.1 - s.p1.1) (s.p2.2 - s.p1.2)
              (lineLength s.p1 s.p2) * 180 / Real.pi)) := by
  have hp1pres := updateGeometryP1_preserved s (lineLength s.p1 s.p2)
  have hp2pres := updateGeometryP2_preserved
    (Arrow.updateGeometryP1 s (lineLength s.p1 s.p2)) (lineLength s.p1 s.p2)
  rw [updateGeometry_long s hlen]
  constructor
  · intro h1 h2
    obtain ⟨cap, hcap⟩ := Option.isSome_iff_exists.mp h2
    rw [hp2pres.2.2.2.2.2.2.1,
        updateGeometryP1_arrowCap s (lineLength s.p1 s.p2) cap h1 hcap]
    rw [capAngle_eq_capAngleSpec]
    rfl
  · intro h1 h2
    obtain ⟨cap, hcap⟩ := Option.isSome_iff_exists.mp h2
    have hstyle : (Arrow.updateGeometryP1 s (lineLength s.p1 s.p2)).p2CapStyle
        = .ArrowCap := by rw [hp1pres.2.2.2.2.2.1]; exact h1
    have harr : (Arrow.updateGeometryP1 s (lineLength s.p1 s.p2)).p2Arrow
        = some cap := by rw [hp1pres.2.2.2.2.2.2.1]; exact hcap
    rw [updateGeometryP2_arrowCap _ _ cap hstyle harr]
    rw [capAngle_eq_capAngleSpec, hp1pres.1, hp1pres.2.1]
    rfl

/-- Witness for C2 at endpoints `(0,0)`, `(3,4)` with both caps present. -/
theorem updateGeometry_cap_rotation_witness :
    Option.map CapItem.rotation (Arrow.updateGeometry exArrow).p1Arrow
        = some (capAngleSpec (exArrow.p2.1 - exArrow.p1.1)
            (exArrow.p2.2 - exArrow.p1.2)
            (lineLength exArrow.p1 exArrow.p2) * 180 / Real.pi) ∧
      Option.map CapItem.rotation (Arrow.updateGeometry exArrow).p2Arrow
        = some (capAngleSpec (exArrow.p2.1 - exArrow.p1.1)
            (exArrow.p2.2 - exArrow.p1.2)
            (lineLength exArrow.p1 exArrow.p2) * 180 / Real.pi) :=
  ⟨(updateGeometry_cap_rotation exArrow exArrow_length_not_short).1 rfl rfl,
   (updateGeometry_cap_rotation exArrow exArrow_length_not_short).2 rfl rfl⟩

/-- C4: for endpoints at distance at least `0.0001`, an `ArrowCap` end with
a non-null cap item has its cap item placed exactly at that endpoint: the
P1 cap at `(p1.x, p1.y)` and the P2 cap at `(p2.x, p2.y)`, with transform
origin `TopLeft`. -/
theorem updateGeometry_cap_position (s : ArrowState)
    (hlen : ¬ lineLength s.p1 s.p2 < 0.0001) :
    (s.p1CapStyle = .ArrowCap → s.p1Arrow.isSome →
        Option.map (fun c => (c.x, c.y, c.transformOrigin))
            (Arrow.updateGeometry s).p1Arrow
          = some (s.p1.1, s.p1.2, TransformOrigin.TopLeft)) ∧
    (s.p2CapStyle = .ArrowCap → s.p2Arrow.isSome →
        Option.map (fun c => (c.x, c.y, c.transformOrigin))
            (Arrow.updateGeometry s).p2Arrow
          = some (s.p2.1, s.p2.2, TransformOrigin.TopLeft)) := by
  have hp1pres := updateGeometryP1_preserved s (lineLength s.p1 s.p2)
  have hp2pres := updateGeometryP2_preserved
    (Arrow.updateGeometryP1 s (lineLength s.p1 s.p2)) (lineLength s.p1 s.p2)
  rw [updateGeometry_long s hlen]
  constructor
  · intro h1 h2
    obtain ⟨cap, hcap⟩ := Option.isSome_iff_exists.mp h2
    rw [hp2pres.2.2.2.2.2.2.1,
        updateGeometryP1_arrowCap s (lineLength s.p1 s.p2) cap h1 hcap]
    rfl
  · intro h1 h2
    obtain ⟨cap, hcap⟩ := Option.isSome_iff_exists.mp h2
    have hstyle : (Arrow.updateGeometryP1 s (lineLength s.p1 s.p2)).p2CapStyle
        = .ArrowCap := by rw [hp1pres.2.2.2.2.2.1]; exact h1
    have harr : (Arrow.updateGeometryP1 s (lineLength s.p1 s.p2)).p2Arrow
        = some cap := by rw [hp1pres.2.2.2.2.2.2.1]; exact hcap
    rw [updateGeometryP2_arrowCap _ _ cap hstyle harr, hp1pres.2.1]
    rfl

/-- Witness for C4 at endpoints `(0,0)`, `(3,4)` with both caps present. -/
theorem updateGeometry_cap_position_witness :
    Option.map (fun c => (c.x, c.y, c.transformOrigin))
        (Arrow.updateGeometry exArrow).p1Arrow
        = some (exArrow.p1.1, exArrow.p1.2, TransformOrigin.TopLeft) ∧
      Option.map (fun c => (c.x, c.y, c.transformOrigin))
        (Arrow.updateGeometry exArrow).p2Arrow
        = some (exArrow.p2.1, exArrow.p2.2, TransformOrigin.TopLeft) :=
  ⟨(updateGeometry_cap_position exArrow exArrow_length_not_short).1 rfl rfl,
   (updateGeometry_cap_position exArrow exArrow_length_not_short).2 rfl rfl⟩

/-- C3: `Arrow::updateCapStyle` gives an `ArrowCap` end a closed triangular
polygon of length `2*capSize` and half-height `capSize` — vertex list
`(0,0), (2s,-s), (2s,s), (0,0)` for the P1 cap and
`(-2s,-s), (0,0), (-2s,s), (-2s,-s)` for the P2 cap — and makes the item
visible; a `NoCap` end has its cap item destroyed and a `CircleCap` end has
an existing cap item merely hidden. -/
theorem updateCapStyle_caps (s : ArrowState) :
    (s.p1CapStyle = .ArrowCap →
        Option.map (fun c => (c.polygon, c.visible)) (Arrow.updateCapStyle s).p1Arrow
          = some ([((0 : ℝ), (0 : ℝ)), (2 * s.p1CapSize, -s.p1CapSize),
                   (2 * s.p1CapSize, s.p1CapSize), (0, 0)], true)) ∧
    (s.p1CapStyle = .NoCap → (Arrow.updateCapStyle s).p1Arrow = none) ∧
    (s.p1CapStyle = .CircleCap →
        (Arrow.updateCapStyle s).p1Arrow
          = Option.map (fun c => { c with visible := false }) s.p1Arrow) ∧
    (s.p2CapStyle = .ArrowCap →
        Option.map (fun c => (c.polygon, c.visible)) (Arrow.updateCapStyle s).p2Arrow
          = some ([(-(2 * s.p2CapSize), -s.p2CapSize), ((0 : ℝ), (0 : ℝ)),
                   (-(2 * s.p2CapSize), s.p2CapSize),
                   (-(2 * s.p2CapSize), -s.p2CapSize)], true)) ∧
    (s.p2CapStyle = .NoCap → (Arrow.updateCapStyle s).p2Arrow = none) ∧
    (s.p2CapStyle = .CircleCap →
        (Arrow.updateCapStyle s).p2Arrow
          = Option.map (fun c => { c with visible := false }) s.p2Arrow) := by
  have hpres1 := updateCapStyleP1_preserved s
  have hpres2 := updateCapStyleP2_preserved (Arrow.updateCapStyleP1 s)
  unfold Arrow.updateCapStyle
  refine ⟨?_, ?_, ?_, ?_, ?_, ?_⟩
  · intro h
    rw [hpres2.2.2.2.2.2.2.1, updateCapStyleP1_arrowCap s h]
    simp [mul_comm]
  · intro h
    rw [hpres2.2.2.2.2.2.2.1, updateCapStyleP1_noCap s h]
  · intro h
    cases ha : s.p1Arrow
    · rw [hpres2.2.2.2.2.2.2.1, updateCapStyleP1_circleCap_none s h ha, ha]
      rfl
    · rw [hpres2.2.2.2.2.2.2.1, updateCapStyleP1_circleCap_some s _ h ha]
      rfl
  · intro h
    have h6 : (Arrow.updateCapStyleP1 s).p2CapStyle = .ArrowCap := by
      rw [hpres1.2.2.2.2.2.1]; exact h
    rw [updateCapStyleP2_arrowCap _ h6]
    show some _ = some _
    rw [hpres1.2.2.2.1]
    simp [mul_comm]
  · intro h
    have h6 : (Arrow.updateCapStyleP1 s).p2CapStyle = .NoCap := by
      rw [hpres1.2.2.2.2.2.1]; exact h
    rw [updateCapStyleP2_noCap _ h6]
  · intro h
    have h6 : (Arrow.updateCapStyleP1 s).p2CapStyle = .CircleCap := by
      rw [hpres1.2.2.2.2.2.1]; exact h
    cases ha : s.p2Arrow with
    | none =>
      have ha6 : (Arrow.updateCapStyleP1 s).p2Arrow = none := by
        rw [hpres1.2.2.2.2.2.2.1]; exact ha
      rw [updateCapStyleP2_circleCap_none _ h6 ha6, hpres1.2.2.2.2.2.2.1, ha]
      rfl
    | some cap =>
      have ha6 : (Arrow.updateCapStyleP1 s).p2Arrow = some cap := by
        rw [hpres1.2.2.2.2.2.2.1]; exact ha
      rw [updateCapStyleP2_circleCap_some _ cap h6 ha6]
      rfl

/-- Witness for C3 at `exArrow`, whose two ends are both `ArrowCap`. -/
theorem updateCapStyle_caps_witness :
    Option.map (fun c => (c.polygon, c.visible)) (Arrow.updateCapStyle exArrow).p1Arrow
        = some ([((0 : ℝ), (0 : ℝ)),
                 (2 * exArrow.p1CapSize, -exArrow.p1CapSize),
                 (2 * exArrow.p1CapSize, exArrow.p1CapSize), (0, 0)], true) ∧
      Option.map (fun c => (c.polygon, c.visible)) (Arrow.updateCapStyle exArrow).p2Arrow
        = some ([(-(2 * exArrow.p2CapSize), -exArrow.p2CapSize), ((0 : ℝ), (0 : ℝ)),
                 (-(2 * exArrow.p2CapSize), exArrow.p2CapSize),
                 (-(2 * exArrow.p2CapSize), -exArrow.p2CapSize)], true) :=
  ⟨(updateCapStyle_caps exArrow).1 rfl, (updateCapStyle_caps exArrow).2.2.2.1 rfl⟩


lemma updateGeometry_obs_arrowCap (s : ArrowState)
    (hlen : ¬ lineLength s.p1 s.p2 < 0.0001)
    (hc1 : s.p1CapStyle = .ArrowCap) (hc2 : s.p2CapStyle = .ArrowCap)
    (cap1 cap2 : CapItem) (h1 : s.p1Arrow = some cap1) (h2 : s.p2Arrow = some cap2) :
    (Arrow.updateGeometry s).line.p1
        = pointAt s.p1 s.p2 (s.p1CapSize * 2 / lineLength s.p1 s.p2) ∧
    (Arrow.updateGeometry s).line.p2
        = pointAt s.p1 s.p2 (1.0 - s.p2CapSize * 2 / lineLength s.p1 s.p2) ∧
    (Arrow.updateGeometry s).p1Arrow = some { cap1 with
        x := s.p1.1, y := s.p1.2, transformOrigin := .TopLeft,
        rotation := capAngle (s.p2.1 - s.p1.1) (s.p2.2 - s.p1.2)
          (lineLength s.p1 s.p2) * 180 / Pi } ∧
    (Arrow.updateGeometry s).p2Arrow = some { cap2 with
        x := s.p2.1, y := s.p2.2, transformOrigin := .TopLeft,
        rotation := capAngle (s.p2.1 - s.p1.1) (s.p2.2 - s.p1.2)
          (lineLength s.p1 s.p2) * 180 / Pi } := by
  have hstyle : (Arrow.updateGeometryP1 s (lineLength s.p1 s.p2)).p2CapStyle
      = .ArrowCap := by
    rw [(updateGeometryP1_preserved s _).2.2.2.2.2.1]; exact hc2
  have harr : (Arrow.updateGeometryP1 s (lineLength s.p1 s.p2)).p2Arrow
      = some cap2 := by
    rw [(updateGeometryP1_preserved s _).2.2.2.2.2.2.1]; exact h2
  rw [updateGeometry_long s hlen,
      updateGeometryP2_arrowCap _ _ cap2 hstyle harr,
      updateGeometryP1_arrowCap s (lineLength s.p1 s.p2) cap1 hc1 h1]
  exact ⟨rfl, rfl, rfl, rfl⟩

/-- C5 (amended): the geometry outputs are a function of the endpoints, the
cap sizes, the cap styles and the cap-item presence: two `updateGeometry`
runs on states agreeing on `p1`, `p2` and both cap sizes, whose ends are
all `ArrowCap` with present cap items, produce equal truncated line
endpoints, cap positions and cap rotations. -/
theorem updateGeometry_deterministic (s t : ArrowState)
    (hp1 : s.p1 = t.p1) (hp2 : s.p2 = t.p2)
    (hs1 : s.p1CapSize = t.p1CapSize) (hs2 : s.p2CapSize = t.p2CapSize)
    (hc1s : s.p1CapStyle = .ArrowCap) (hc1t : t.p1CapStyle = .ArrowCap)
    (hc2s : s.p2CapStyle = .ArrowCap) (hc2t : t.p2CapStyle = .ArrowCap)
    (ha1s : s.p1Arrow.isSome) (ha1t : t.p1Arrow.isSome)
    (ha2s : s.p2Arrow.isSome) (ha2t : t.p2Arrow.isSome)
    (hlen : ¬ lineLength s.p1 s.p2 < 0.0001) :
    (Arrow.updateGeometry s).line.p1 = (Arrow.updateGeometry t).line.p1 ∧
    (Arrow.updateGeometry s).line.p2 = (Arrow.updateGeometry t).line.p2 ∧
    Option.map (fun c => (c.x, c.y, c.rotation)) (Arrow.updateGeometry s).p1Arrow
      = Option.map (fun c => (c.x, c.y, c.rotation)) (Arrow.updateGeometry t).p1Arrow ∧
    Option.map (fun c => (c.x, c.y, c.rotation)) (Arrow.updateGeometry s).p2Arrow
      = Option.map (fun c => (c.x, c.y, c.rotation)) (Arrow.updateGeometry t).p2Arrow := by
  obtain ⟨c1s, h1s⟩ := Option.isSome_iff_exists.mp ha1s
  obtain ⟨c2s, h2s⟩ := Option.isSome_iff_exists.mp ha2s
  obtain ⟨c1t, h1t⟩ := Option.isSome_iff_exists.mp ha1t
  obtain ⟨c2t, h2t⟩ := Option.isSome_iff_exists.mp ha2t
  have hlent : ¬ lineLength t.p1 t.p2 < 0.0001 := by rw [← hp1, ← hp2]; exact hlen
  have os := updateGeometry_obs_arrowCap s hlen hc1s hc2s c1s c2s h1s h2s
  have ot := updateGeometry_obs_arrowCap t hlent hc1t hc2t c1t c2t h1t h2t
  refine ⟨?_, ?_, ?_, ?_⟩
  · rw [os.1, ot.1, hp1, hp2, hs1]
  · rw [os.2.1, ot.2.1, hp1, hp2, hs2]
  · rw [os.2.2.1, ot.2.2.1, hp1, hp2]
    rfl
  · rw [os.2.2.2, ot.2.2.2, hp1, hp2]
    rfl

/-- C5 counterexample: two states agreeing on the endpoints and the cap
sizes (the claim's declared inputs) whose `updateGeometry` runs give
different internal-line P1 endpoints — the cap style and cap-item presence
also influence the result. -/
theorem updateGeometry_hidden_state_cex :
    exArrow.p1 = exArrowNoCap.p1 ∧ exArrow.p2 = exArrowNoCap.p2 ∧
    exArrow.p1CapSize = exArrowNoCap.p1CapSize ∧
    exArrow.p2CapSize = exArrowNoCap.p2CapSize ∧
    (Arrow.updateGeometry exArrow).line.p1
      ≠ (Arrow.updateGeometry exArrowNoCap).line.p1 := by
  refine ⟨rfl, rfl, rfl, rfl, ?_⟩
  have hA := (updateGeometry_obs_arrowCap exArrow exArrow_length_not_short rfl rfl
    CapItem.fresh CapItem.fresh rfl rfl).1
  have hlenB : ¬ lineLength exArrowNoCap.p1 exArrowNoCap.p2 < 0.0001 :=
    exArrow_length_not_short
  have hB : (Arrow.updateGeometry exArrowNoCap).line.p1 = exArrowNoCap.p1 := by
    rw [updateGeometry_long exArrowNoCap hlenB,
        (updateGeometryP2_preserved _ _).2.2.2.2.2.2.2.2.1,
        updateGeometryP1_noCap exArrowNoCap _ rfl]
  rw [hA, hB, exArrow_length]
  intro h
  have h1 := congrArg Prod.fst h
  simp [pointAt, exArrow, exArrowNoCap] at h1

/-- Witness for C5 (amended) at `exArrow` and `exArrowAlt`, which differ in
color and prior internal-line state but agree on all declared inputs. -/
theorem updateGeometry_deterministic_witness :
    (Arrow.updateGeometry exArrow).line.p1 = (Arrow.updateGeometry exArrowAlt).line.p1 ∧
    (Arrow.updateGeometry exArrow).line.p2 = (Arrow.updateGeometry exArrowAlt).line.p2 ∧
    Option.map (fun c => (c.x, c.y, c.rotation)) (Arrow.updateGeometry exArrow).p1Arrow
      = Option.map (fun c => (c.x, c.y, c.rotation)) (Arrow.updateGeometry exArrowAlt).p1Arrow ∧
    Option.map (fun c => (c.x, c.y, c.rotation)) (Arrow.updateGeometry exArrow).p2Arrow
      = Option.map (fun c => (c.x, c.y, c.rotation)) (Arrow.updateGeometry exArrowAlt).p2Arrow :=
  updateGeometry_deterministic exArrow exArrowAlt rfl rfl rfl rfl rfl rfl rfl rfl
    rfl rfl rfl rfl exArrow_length_not_short


lemma setColor_eq_noop (s : ArrowState) (c : Color) (h : c = s.color) :
    Arrow.setColor s c = (s, []) := by
  unfold Arrow.setColor
  simp [h]

lemma setColor_change (s : ArrowState) (c : Color) (h : c ≠ s.color) :
    Arrow.setColor s c =
      ({ s with
          color := c,
          line := { s.line with color := c },
          p1Arrow := s.p1Arrow.map (fun cap => { cap with color := c }),
          p2Arrow := s.p2Arrow.map (fun cap => { cap with color := c }) },
       [Signal.colorChanged]) := by
  unfold Arrow.setColor
  simp [h]

/-- C10: `Arrow::setColor` is a no-op (no state change, no signal) on an
equal color; on a different color it stores the color, propagates it to the
internal line and to each non-null cap item and emits `colorChanged`
exactly once; consequently `setColor(c)` twice is observationally equal to
`setColor(c)` once. -/
theorem setColor_idempotent (s : ArrowState) (c : Color) :
    (c = s.color → Arrow.setColor s c = (s, [])) ∧
    (c ≠ s.color →
        (Arrow.setColor s c).1.color = c ∧
        (Arrow.setColor s c).1.line.color = c ∧
        (Arrow.setColor s c).1.p1Arrow
          = s.p1Arrow.map (fun cap => { cap with color := c }) ∧
        (Arrow.setColor s c).1.p2Arrow
          = s.p2Arrow.map (fun cap => { cap with color := c }) ∧
        (Arrow.setColor s c).2 = [Signal.colorChanged]) ∧
    Arrow.setColor (Arrow.setColor s c).1 c = ((Arrow.setColor s c).1, []) := by
  refine ⟨fun h => setColor_eq_noop s c h, fun h => ?_, ?_⟩
  · rw [setColor_change s c h]
    exact ⟨rfl, rfl, rfl, rfl, rfl⟩
  · by_cases h : c = s.color
    · rw [setColor_eq_noop s c h]
      exact setColor_eq_noop s c h
    · rw [setColor_change s c h]
      exact setColor_eq_noop _ c rfl

/-- Witness for C10 at `exArrow` (stored color 0): an equal set with 0 and
a changing set with 1. -/
theorem setColor_idempotent_witness :
    Arrow.setColor exArrow 0 = (exArrow, []) ∧
      (Arrow.setColor exArrow 1).1.color = 1 ∧
      (Arrow.setColor exArrow 1).1.line.color = 1 ∧
      (Arrow.setColor exArrow 1).2 = [Signal.colorChanged] ∧
      Arrow.setColor (Arrow.setColor exArrow 1).1 1
        = ((Arrow.setColor exArrow 1).1, []) :=
  ⟨(setColor_idempotent exArrow 0).1 rfl,
   ((setColor_idempotent exArrow 1).2.1 (by decide)).1,
   ((setColor_idempotent exArrow 1).2.1 (by decide)).2.1,
   ((setColor_idempotent exArrow 1).2.1 (by decide)).2.2.2.2,
   (setColor_idempotent exArrow 1).2.2⟩

end qgl

namespace qan

/-- C6: the `qan::ProgressNotifier` constructor is pure forwarding: it
hands `parent` to the `QObject` base, a null super-notifier to the
`gtpo::ProgressNotifier` base, and performs no other state change. -/
theorem progressNotifier_construct_forwards (parent : Option ℕ) :
    (ProgressNotifier.construct parent).parent = parent ∧
      (ProgressNotifier.construct parent).superNotifier = none :=
  ⟨rfl, rfl⟩

/-- C7: the `qan::Node` property setters are thin store-and-notify
wrappers: each stores its argument (so the matching getter returns it),
unconditionally emits exactly its changed signal, and changes nothing
else. -/
theorem node_setters_store_and_notify (s : NodeState) (l : String)
    (b1 b2 b3 : Bool) (sz : SizeF) :
    Node.setLabel s l = ({ s with label := l }, [NodeSignal.labelChanged]) ∧
    Node.getLabel (Node.setLabel s l).1 = l ∧
    Node.setDraggable s b1
      = ({ s with draggable := b1 }, [NodeSignal.draggableChanged]) ∧
    Node.getDraggable (Node.setDraggable s b1).1 = b1 ∧
    Node.setDropable s b2
      = ({ s with dropable := b2 }, [NodeSignal.dropableChanged]) ∧
    Node.getDropable (Node.setDropable s b2).1 = b2 ∧
    Node.setDragActive s b3
      = ({ s with dragActive := b3 }, [NodeSignal.dragActiveChanged]) ∧
    Node.getDragActive (Node.setDragActive s b3).1 = b3 ∧
    Node.setMinimumSize s sz
      = ({ s with minimumSize := sz }, [NodeSignal.minimumSizeChanged]) ∧
    Node.getMinimumSize (Node.setMinimumSize s sz).1 = sz :=
  ⟨rfl, rfl, rfl, rfl, rfl, rfl, rfl, rfl, rfl, rfl⟩

end qan

namespace qgl

/- Lemmas on cap-size preservation and the cap-size setters, toward C9. -/

lemma updateCapStyle_sizes (s : ArrowState) :
    (Arrow.updateCapStyle s).p1CapSize = s.p1CapSize ∧
    (Arrow.updateCapStyle s).p2CapSize = s.p2CapSize ∧
    (Arrow.updateCapStyle s).line.lineWidth = s.line.lineWidth := by
  have h1 := updateCapStyleP1_preserved s
  have h2 := updateCapStyleP2_preserved (Arrow.updateCapStyleP1 s)
  unfold Arrow.updateCapStyle
  refine ⟨h2.2.2.1.trans h1.2.2.1, h2.2.2.2.1.trans h1.2.2.2.1, ?_⟩
  rw [h2.2.2.2.2.2.2.2.2, h1.2.2.2.2.2.2.2.2]

lemma updateGeometry_sizes (s : ArrowState) :
    (Arrow.updateGeometry s).p1CapSize = s.p1CapSize ∧
    (Arrow.updateGeometry s).p2CapSize = s.p2CapSize ∧
    (Arrow.updateGeometry s).line.lineWidth = s.line.lineWidth := by
  by_cases h : lineLength s.p1 s.p2 < 0.0001
  · unfold Arrow.updateGeometry
    simp [h]
  · rw [updateGeometry_long s h]
    have h1 := updateGeometryP1_preserved s (lineLength s.p1 s.p2)
    have h2 := updateGeometryP2_preserved
      (Arrow.updateGeometryP1 s (lineLength s.p1 s.p2)) (lineLength s.p1 s.p2)
    exact ⟨h2.2.2.1.trans h1.2.2.1, h2.2.2.2.1.trans h1.2.2.2.1,
           h2.2.2.2.2.2.2.2.2.2.1.trans h1.2.2.2.2.2.2.2.2.2.1⟩

lemma setP1CapSize_spec (s : ArrowState) (c : ℝ) :
    ((Arrow.setP1CapSize s c).1.p1CapSize = max (getLineWidth s / 2) c ∧
       (Arrow.setP1CapSize s c).1.p2CapSize = s.p2CapSize ∧
       (Arrow.setP1CapSize s c).1.line.lineWidth = s.line.lineWidth) ∨
    ((Arrow.setP1CapSize s c).1 = s ∧
       qFuzzyCompare (1 + max (getLineWidth s / 2) c) (1 + s.p1CapSize)) := by
  simp only [Arrow.setP1CapSize]
  by_cases h : qFuzzyCompare (1 + max (getLineWidth s / 2) c) (1 + s.p1CapSize)
  · right
    rw [if_neg (not_not_intro h)]
    exact ⟨rfl, h⟩
  · left
    rw [if_pos h]
    have hg := updateGeometry_sizes
      (Arrow.updateCapStyle { s with p1CapSize := max (getLineWidth s / 2) c })
    have hcs := updateCapStyle_sizes { s with p1CapSize := max (getLineWidth s / 2) c }
    exact ⟨hg.1.trans hcs.1, hg.2.1.trans hcs.2.1, hg.2.2.trans hcs.2.2⟩

lemma setP2CapSize_spec (s : ArrowState) (c : ℝ) :
    ((Arrow.setP2CapSize s c).1.p2CapSize = max (getLineWidth s / 2) c ∧
       (Arrow.setP2CapSize s c).1.p1CapSize = s.p1CapSize ∧
       (Arrow.setP2CapSize s c).1.line.lineWidth = s.line.lineWidth) ∨
    ((Arrow.setP2CapSize s c).1 = s ∧
       qFuzzyCompare (1 + max (getLineWidth s / 2) c) (1 + s.p2CapSize)) := by
  simp only [Arrow.setP2CapSize]
  by_cases h : qFuzzyCompare (1 + max (getLineWidth s / 2) c) (1 + s.p2CapSize)
  · right
    rw [if_neg (not_not_intro h)]
    exact ⟨rfl, h⟩
  · left
    rw [if_pos h]
    have hg := updateGeometry_sizes
      (Arrow.updateCapStyle { s with p2CapSize := max (getLineWidth s / 2) c })
    have hcs := updateCapStyle_sizes { s with p2CapSize := max (getLineWidth s / 2) c }
    exact ⟨hg.2.1.trans hcs.2.1, hg.1.trans hcs.1, hg.2.2.trans hcs.2.2⟩

lemma setP1CapSize_p1 (s : ArrowState) (c : ℝ) :
    (Arrow.setP1CapSize s c).1.p1CapSize = max (getLineWidth s / 2) c ∨
    ((Arrow.setP1CapSize s c).1.p1CapSize = s.p1CapSize ∧
       qFuzzyCompare (1 + max (getLineWidth s / 2) c) (1 + s.p1CapSize)) := by
  rcases setP1CapSize_spec s c with ⟨ha, _, _⟩ | ⟨hn, hf⟩
  · exact Or.inl ha
  · exact Or.inr ⟨by rw [hn], hf⟩

lemma setP2CapSize_p2 (s : ArrowState) (c : ℝ) :
    (Arrow.setP2CapSize s c).1.p2CapSize = max (getLineWidth s / 2) c ∨
    ((Arrow.setP2CapSize s c).1.p2CapSize = s.p2CapSize ∧
       qFuzzyCompare (1 + max (getLineWidth s / 2) c) (1 + s.p2CapSize)) := by
  rcases setP2CapSize_spec s c with ⟨ha, _, _⟩ | ⟨hn, hf⟩
  · exact Or.inl ha
  · exact Or.inr ⟨by rw [hn], hf⟩

lemma setP1CapSize_p2_pres (s : ArrowState) (c : ℝ) :
    (Arrow.setP1CapSize s c).1.p2CapSize = s.p2CapSize := by
  rcases setP1CapSize_spec s c with ⟨_, hb, _⟩ | ⟨hn, _⟩
  · exact hb
  · rw [hn]

lemma setP2CapSize_p1_pres (s : ArrowState) (c : ℝ) :
    (Arrow.setP2CapSize s c).1.p1CapSize = s.p1CapSize := by
  rcases setP2CapSize_spec s c with ⟨_, hb, _⟩ | ⟨hn, _⟩
  · exact hb
  · rw [hn]

lemma setP2CapSize_lw_pres (s : ArrowState) (c : ℝ) :
    (Arrow.setP2CapSize s c).1.line.lineWidth = s.line.lineWidth := by
  rcases setP2CapSize_spec s c with ⟨_, _, hb⟩ | ⟨hn, _⟩
  · exact hb
  · rw [hn]

lemma raiseP1 (x : ArrowState) (w : ℝ) (hlw : getLineWidth x = w) :
    (if getP1CapSize x < w / 2
        then Arrow.setP1CapSize x (w / 2) else (x, [])).1.p1CapSize ≥ w / 2 ∨
      qFuzzyCompare (1 + w / 2)
        (1 + (if getP1CapSize x < w / 2
          then Arrow.setP1CapSize x (w / 2) else (x, [])).1.p1CapSize) := by
  by_cases h1 : getP1CapSize x < w / 2
  · rw [if_pos h1]
    rcases setP1CapSize_spec x (w / 2) with ⟨ha, _, _⟩ | ⟨hn, hfz⟩
    · left
      rw [ha]
      exact le_max_right _ _
    · right
      rw [hn]
      rw [hlw, max_self] at hfz
      exact hfz
  · rw [if_neg h1]
    exact Or.inl (le_of_not_lt h1)

lemma raiseP2 (x : ArrowState) (w : ℝ) (hlw : getLineWidth x = w) :
    (if getP2CapSize x < w / 2
        then Arrow.setP2CapSize x (w / 2) else (x, [])).1.p2CapSize ≥ w / 2 ∨
      qFuzzyCompare (1 + w / 2)
        (1 + (if getP2CapSize x < w / 2
          then Arrow.setP2CapSize x (w / 2) else (x, [])).1.p2CapSize) := by
  by_cases h2 : getP2CapSize x < w / 2
  · rw [if_pos h2]
    rcases setP2CapSize_spec x (w / 2) with ⟨ha, _, _⟩ | ⟨hn, hfz⟩
    · left
      rw [ha]
      exact le_max_right _ _
    · right
      rw [hn]
      rw [hlw, max_self] at hfz
      exact hfz
  · rw [if_neg h2]
    exact Or.inl (le_of_not_lt h2)

lemma p2_through_P1step (x : ArrowState) (w : ℝ) :
    (if getP1CapSize x < w / 2
        then Arrow.setP1CapSize x (w / 2) else (x, [])).1.p2CapSize
      = x.p2CapSize := by
  by_cases h1 : getP1CapSize x < w / 2
  · rw [if_pos h1]
    exact setP1CapSize_p2_pres x (w / 2)
  · rw [if_neg h1]

lemma lw_through_P2step (x : ArrowState) (w : ℝ) :
    (if getP2CapSize x < w / 2
        then Arrow.setP2CapSize x (w / 2) else (x, [])).1.line.lineWidth
      = x.line.lineWidth := by
  by_cases h2 : getP2CapSize x < w / 2
  · rw [if_pos h2]
    exact setP2CapSize_lw_pres x (w / 2)
  · rw [if_neg h2]

/-- C9 (amended): `setP1CapSize`/`setP2CapSize` either store the clamped
value `max(lineWidth/2, capSize)` or, when that value fuzzy-compares equal
to the stored one, leave the old cap size; `setLineWidth` leaves each cap
size at least `lineWidth/2` except that a cap size may stay below it by the
`qFuzzyCompare` tolerance when the raise is skipped as fuzzy-equal. -/
theorem arrow_capSize_clamped (s : ArrowState) (w c : ℝ) :
    ((Arrow.setP1CapSize s c).1.p1CapSize = max (getLineWidth s / 2) c ∨
       ((Arrow.setP1CapSize s c).1.p1CapSize = s.p1CapSize ∧
         qFuzzyCompare (1 + max (getLineWidth s / 2) c) (1 + s.p1CapSize))) ∧
    ((Arrow.setP2CapSize s c).1.p2CapSize = max (getLineWidth s / 2) c ∨
       ((Arrow.setP2CapSize s c).1.p2CapSize = s.p2CapSize ∧
         qFuzzyCompare (1 + max (getLineWidth s / 2) c) (1 + s.p2CapSize))) ∧
    ((Arrow.setLineWidth s w).1.p1CapSize ≥ w / 2 ∨
       qFuzzyCompare (1 + w / 2) (1 + (Arrow.setLineWidth s w).1.p1CapSize)) ∧
    ((Arrow.setLineWidth s w).1.p2CapSize ≥ w / 2 ∨
       qFuzzyCompare (1 + w / 2) (1 + (Arrow.setLineWidth s w).1.p2CapSize)) := by
  refine ⟨setP1CapSize_p1 s c, setP2CapSize_p2 s c, ?_, ?_⟩
  · simp only [Arrow.setLineWidth]
    exact raiseP1 _ w
      (lw_through_P2step { s with line := { s.line with lineWidth := w } } w)
  · simp only [Arrow.setLineWidth]
    rw [p2_through_P1step _ w]
    exact raiseP2 { s with line := { s.line with lineWidth := w } } w rfl

lemma fuzzyState_cond2 :
    ¬ (getP2CapSize { fuzzyState with
        line := { fuzzyState.line with lineWidth := (2 : ℝ) } } < 2 / 2) := by
  show ¬ ((5 : ℝ) < 2 / 2)
  norm_num

lemma fuzzyState_cond1 :
    getP1CapSize { fuzzyState with
        line := { fuzzyState.line with lineWidth := (2 : ℝ) } } < 2 / 2 := by
  show (1 - 1 / 10 ^ 13 : ℝ) < 2 / 2
  norm_num

lemma fuzzyState_fuzzy :
    qFuzzyCompare
      (1 + max (getLineWidth { fuzzyState with
          line := { fuzzyState.line with lineWidth := (2 : ℝ) } } / 2) (2 / 2))
      (1 + ({ fuzzyState with
          line := { fuzzyState.line with lineWidth := (2 : ℝ) } } : ArrowState).p1CapSize) := by
  show qFuzzyCompare (1 + max ((2 : ℝ) / 2) (2 / 2)) (1 + (1 - 1 / 10 ^ 13))
  unfold qFuzzyCompare
  rw [max_self]
  rw [show (1 + (2 : ℝ) / 2) - (1 + (1 - 1 / 10 ^ 13)) = 1 / 10 ^ 13 by ring]
  rw [abs_of_pos (by norm_num : (0 : ℝ) < 1 / 10 ^ 13),
      abs_of_pos (by norm_num : (0 : ℝ) < 1 + (2 : ℝ) / 2),
      abs_of_pos (by norm_num : (0 : ℝ) < 1 + (1 - 1 / 10 ^ 13)),
      min_eq_right (by norm_num : (1 : ℝ) + (1 - 1 / 10 ^ 13) ≤ 1 + (2 : ℝ) / 2)]
  norm_num

lemma setLineWidth_fuzzyState :
    (Arrow.setLineWidth fuzzyState 2).1
      = { fuzzyState with line := { fuzzyState.line with lineWidth := 2 } } := by
  simp only [Arrow.setLineWidth]
  rw [if_neg fuzzyState_cond2]
  show (if getP1CapSize { fuzzyState with
          line := { fuzzyState.line with lineWidth := (2 : ℝ) } } < 2 / 2
        then Arrow.setP1CapSize { fuzzyState with
          line := { fuzzyState.line with lineWidth := (2 : ℝ) } } (2 / 2)
        else ({ fuzzyState with
          line := { fuzzyState.line with lineWidth := (2 : ℝ) } }, [])).1
      = { fuzzyState with line := { fuzzyState.line with lineWidth := 2 } }
  rw [if_pos fuzzyState_cond1]
  simp only [Arrow.setP1CapSize]
  rw [if_neg (not_not_intro fuzzyState_fuzzy)]

/-- C9 counterexample: `fuzzyState` satisfies the cap-size invariant
(`p1CapSize = lineWidth/2` exactly), yet after `setLineWidth 2` its
`p1CapSize` stays `1 - 10⁻¹³ < 2/2`: the raise to `lineWidth/2` is skipped
because the clamped value fuzzy-compares equal to the stored one. -/
theorem arrow_capSize_invariant_cex :
    fuzzyState.p1CapSize ≥ fuzzyState.line.lineWidth / 2 ∧
    fuzzyState.p2CapSize ≥ fuzzyState.line.lineWidth / 2 ∧
    (Arrow.setLineWidth fuzzyState 2).1.line.lineWidth = 2 ∧
    (Arrow.setLineWidth fuzzyState 2).1.p1CapSize < 2 / 2 := by
  refine ⟨?_, ?_, ?_, ?_⟩
  · show (1 - 1 / 10 ^ 13 : ℝ) ≥ (2 - 2 / 10 ^ 13) / 2
    norm_num
  · show (5 : ℝ) ≥ (2 - 2 / 10 ^ 13) / 2
    norm_num
  · rw [setLineWidth_fuzzyState]
  · rw [setLineWidth_fuzzyState]
    show (1 - 1 / 10 ^ 13 : ℝ) < 2 / 2
    norm_num

end qgl
